import Mathlib

/-!
Verification of the voicehire heuristic fallback engine (config/fallback.js),
the grade mapping used by routes/interview.js and routes/report.js, the answer
submission validation of routes/interview.js, and the proctoring violation
policy of voicehire-frontend/app.js, as a shallow embedding in Lean.

Strings are modelled by Lean `String` / `List Char`; JavaScript numbers by
`Nat`, `Int` and `ℚ` (the quantities involved are exact small integers and
fractions, so rational arithmetic coincides with the float computation);
`Math.random()` draws by explicit parameters (a rational in `[0,1)`, or a
natural index, or a stream of comparator coins).
-/

namespace VoiceHire

set_option maxRecDepth 10000

/-- Whitespace test used to model the JS `\s` character class and
`String.prototype.trim` (answers are ASCII text, so Lean's
`Char.isWhitespace` matches the JS behaviour on the inputs that matter). -/
def isWS (c : Char) : Bool := c.isWhitespace

/-- Model of `String.prototype.trim` on the character list of a string:
drop whitespace from both ends. -/
def wsTrim (l : List Char) : List Char :=
  ((l.dropWhile isWS).reverse.dropWhile isWS).reverse

/-- Number of whitespace-separated words of a character list: split at every
whitespace character and count the non-empty segments (splitting at each
character and dropping empties counts exactly the maximal non-whitespace
runs, which is what the JS split on the run regex `\s+` of a trimmed string
returns). -/
def tokenCount (l : List Char) : Nat :=
  ((l.splitOnP isWS).filter (fun t => !t.isEmpty)).length

/-- Word count of `answerText.trim().split(/\s+/).length` in
`evaluateAnswerLocally`: JS `"".split(/\s+/)` is `[""]`, of length 1, so a
whitespace-only answer counts as one word; otherwise the split of the trimmed
string on whitespace runs lists exactly the words. -/
def jsWordCount (l : List Char) : Nat :=
  if wsTrim l = [] then 1 else tokenCount (wsTrim l)

/-- Sentence-terminator test for the JS character class `[.!?]`. -/
def isSentencePunct (c : Char) : Bool := c == '.' || c == '!' || c == '?'

/-- Sentence count of `answerText.split(/[.!?]+/).filter(s => s.trim()).length`:
split at every `.`, `!`, `?` and keep the segments that are non-empty after
trimming.  (JS splits on runs of terminators; the extra segments produced by
splitting at each single one are empty and are removed by the same filter, so
the counts agree.) -/
def sentenceCount (l : List Char) : Nat :=
  ((l.splitOnP isSentencePunct).filter (fun s => !(wsTrim s).isEmpty)).length

/-- Lower-case every character (the JS regexes use the `i` flag; all the
keyword patterns are ASCII, for which `Char.toLower` is the JS folding). -/
def lowerAll (l : List Char) : List Char := l.map Char.toLower

/-- Containment of `needle` as a contiguous subsequence of `hay`, the meaning
of a literal-substring regex test. -/
def containsSeq (needle : List Char) : List Char → Bool
  | [] => needle.isEmpty
  | c :: rest => needle.isPrefixOf (c :: rest) || containsSeq needle rest

/-- Alternation list of the `hasSpecifics` regex of `evaluateAnswerLocally`. -/
def specificityMarkers : List String :=
  ["for example", "specifically", "such as", "instance", "result", "outcome",
   "achieved", "improved", "increased", "reduced", "led to"]

/-- Alternation list of the `hasStructure` regex of `evaluateAnswerLocally`. -/
def structureMarkers : List String :=
  ["first", "second", "additionally", "moreover", "however", "in conclusion",
   "finally"]

/-- Case-insensitive test whether any marker of the list occurs in the
answer, the meaning of `/m1|m2|...|mk/i.test(answerText)` for literal
alternatives. -/
def hasMarker (markers : List String) (answer : List Char) : Bool :=
  markers.any (fun m => containsSeq m.data (lowerAll answer))

/-- Own property names of `Object.prototype` in ECMAScript (Node).  A JS
property read on an object literal that misses every own property continues
on the prototype chain and finds these, each bound to a truthy function (or,
for `__proto__`, to `Object.prototype` itself) rather than to `undefined`. -/
def objectProtoKeys : List String :=
  ["constructor", "hasOwnProperty", "isPrototypeOf", "propertyIsEnumerable",
   "toLocaleString", "toString", "valueOf", "__proto__",
   "__defineGetter__", "__defineSetter__", "__lookupGetter__", "__lookupSetter__"]

/-- JS number as `evaluateAnswerLocally` can produce it: a (natural) number
or `NaN` (the result of `Math.min`/`Math.max` on a non-numeric operand). -/
inductive JSNum where
  | nan
  | num (n : Nat)
deriving Repr, DecidableEq

/-- Value read by the property access `caps[difficulty]`: an own numeric
property, a truthy non-numeric member inherited from `Object.prototype`
(for the keys of `objectProtoKeys`), or `undefined`. -/
inductive CapsProp where
  | num (n : Nat)
  | inherited
  | undefined
deriving Repr, DecidableEq

/-- The property read `caps[difficulty]` of `evaluateAnswerLocally` (line
130-131): the literal `{ Easy: 95, Medium: 90, Hard: 85, Expert: 80 }` has
four own properties; any other key falls through to `Object.prototype`,
whose members are truthy non-numbers; only a key absent there too reads
`undefined`. -/
def capsLookup (difficulty : String) : CapsProp :=
  if difficulty == "Easy" then .num 95
  else if difficulty == "Medium" then .num 90
  else if difficulty == "Hard" then .num 85
  else if difficulty == "Expert" then .num 80
  else if objectProtoKeys.contains difficulty then .inherited
  else .undefined

/-- The expression `caps[difficulty] || 90`: only `undefined` is falsy here
(the own values and the inherited members are all truthy), so the default 90
applies exactly when the key is absent from the whole prototype chain. -/
def capOrDefault (difficulty : String) : CapsProp :=
  match capsLookup difficulty with
  | .undefined => .num 90
  | p => p

/-- `Math.min(score, v)`: the minimum when `v` is a number, `NaN` when `v`
is a non-numeric value (a function or object coerces to `NaN`). -/
def jsMin (a : Nat) : CapsProp → JSNum
  | .num c => .num (min a c)
  | _ => .nan

/-- `Math.max(v, 30)`: `NaN` propagates, a number is floored at 30. -/
def jsMax30 : JSNum → JSNum
  | .nan => .nan
  | .num n => .num (max n 30)

/-- JS comparison `score >= k` on a possibly-`NaN` score: every comparison
with `NaN` is false. -/
def jsGe (s : JSNum) (k : Nat) : Bool :=
  match s with
  | .nan => false
  | .num n => n ≥ k

/-- Score computation of `evaluateAnswerLocally` (config/fallback.js lines
103-132), transcribed statement by statement: base 50, the four stacking
word-count bonuses, the two sentence-count bonuses, the three keyword
bonuses, then `Math.min(score, caps[difficulty] || 90)` and
`Math.max(score, 30)`.  For a difficulty string naming an inherited
`Object.prototype` member the cap read is a truthy non-number and the score
degenerates to `NaN`. -/
def evaluateScore (answerText difficulty : String) : JSNum :=
  let a := answerText.data
  let wordCount := jsWordCount a
  let sentences := sentenceCount a
  let score := 50
  let score := score
    + (if wordCount ≥ 20 then 5 else 0)
    + (if wordCount ≥ 50 then 10 else 0)
    + (if wordCount ≥ 100 then 5 else 0)
    + (if wordCount ≥ 150 then 5 else 0)
  let score := score
    + (if sentences ≥ 2 then 5 else 0)
    + (if sentences ≥ 4 then 5 else 0)
  let hasNumbers := a.any Char.isDigit
  let hasSpecifics := hasMarker specificityMarkers a
  let hasStructure := hasMarker structureMarkers a
  let score := score
    + (if hasNumbers then 5 else 0)
    + (if hasSpecifics then 5 else 0)
    + (if hasStructure then 5 else 0)
  jsMax30 (jsMin score (capOrDefault difficulty))

/-- Feedback record returned by `evaluateAnswerLocally`. -/
structure Feedback where
  score : JSNum
  positive : String
  improve : String
  brief : String
deriving Repr, DecidableEq

/-- Fixed pool of positive phrases of `evaluateAnswerLocally`. -/
def positiveOptions : List String :=
  ["You provided a clear and direct response to the question.",
   "Your answer shows good understanding of the topic.",
   "You communicated your thoughts effectively.",
   "Your response was well-structured and easy to follow.",
   "You demonstrated relevant knowledge in your answer."]

/-- Fixed pool of improvement phrases of `evaluateAnswerLocally`. -/
def improveOptions : List String :=
  ["Try adding more specific examples with measurable outcomes.",
   "Consider using the STAR method (Situation, Task, Action, Result) for behavioral answers.",
   "Adding quantifiable metrics would strengthen your response.",
   "Try to connect your answer more directly to the role requirements.",
   "Consider providing more depth with real-world examples from your experience."]

/-- Fixed pool of brief verdict templates of `evaluateAnswerLocally`,
parameterised by the JS comparison `score >= 70` (false for a `NaN` score). -/
def briefOptions (score : JSNum) : List String :=
  [(if jsGe score 70 then "Good" else "Decent") ++ " answer. "
     ++ (if jsGe score 70 then "Keep this up!" else "A bit more depth would help."),
   (if jsGe score 70 then "Strong" else "Fair") ++ " response. "
     ++ (if jsGe score 70 then "Well articulated." else "Try to be more specific."),
   (if jsGe score 70 then "Impressive" else "Reasonable") ++ " answer. "
     ++ (if jsGe score 70 then "Shows solid understanding." else "Could use more examples.")]

/-- The `evaluateAnswerLocally` function of config/fallback.js.  The three
`Math.floor(Math.random() * pool.length)` draws are modelled by the natural
parameters `r1 r2 r3` reduced modulo the pool length (the JS draw lands in
`[0, length)`); `questionText` is received and ignored, as in the source. -/
def evaluateAnswerLocally (questionText answerText difficulty : String)
    (r1 r2 r3 : Nat) : Feedback :=
  let _ := questionText
  let score := evaluateScore answerText difficulty
  { score := score
  , positive := positiveOptions.getD (r1 % positiveOptions.length) ""
  , improve := improveOptions.getD (r2 % improveOptions.length) ""
  , brief := (briefOptions score).getD (r3 % (briefOptions score).length) "" }

/-- Difficulty ceiling as the claim states it: Easy 95, Medium 90, Hard 85,
Expert 80, and 90 for an unrecognized difficulty. -/
def specCap (difficulty : String) : Nat :=
  if difficulty == "Easy" then 95
  else if difficulty == "Medium" then 90
  else if difficulty == "Hard" then 85
  else if difficulty == "Expert" then 80
  else 90

/-- Behavioral pool of the question bank `QUESTIONS.behavioral`
(config/fallback.js). -/
def QUESTIONS_behavioral : List String :=
  ["Tell me about yourself and what makes you a good fit for this role.",
   "Describe a time when you had to deal with a difficult coworker or team member. How did you handle it?",
   "Give me an example of a time you showed leadership, even if you weren't in a management role.",
   "Tell me about a project you're particularly proud of. What was your contribution?",
   "Describe a situation where you had to meet a tight deadline. How did you manage your time?",
   "Tell me about a time you received constructive criticism. How did you respond?",
   "Give an example of when you had to adapt to a significant change at work.",
   "Describe a time when you had to persuade someone to see things your way.",
   "Tell me about a mistake you made at work and how you handled it.",
   "How do you handle stress and pressure in the workplace?",
   "Describe a situation where you went above and beyond your job responsibilities.",
   "Tell me about a time you had to work with a team to achieve a common goal.",
   "Give an example of how you've handled a conflict at work.",
   "Describe a time when you had to make a difficult decision with limited information.",
   "Tell me about a time you failed. What did you learn from the experience?"]

/-- Technical pool of the question bank `QUESTIONS.technical`. -/
def QUESTIONS_technical : List String :=
  ["Explain the concept of RESTful APIs and why they are important in modern software development.",
   "What is the difference between SQL and NoSQL databases? When would you use each?",
   "Describe how you would design a scalable web application architecture.",
   "Explain the concept of Object-Oriented Programming and its main principles.",
   "What are design patterns? Can you describe a few that you've used?",
   "How would you optimize the performance of a slow database query?",
   "Explain the concept of microservices architecture and its pros and cons.",
   "What is version control and why is it important? Describe your Git workflow.",
   "How do you approach debugging a complex issue in production?",
   "Explain the difference between authentication and authorization.",
   "What is CI/CD and why is it important in software development?",
   "Describe how caching works and when you would implement it.",
   "What are the SOLID principles in software design?",
   "Explain how you would handle security vulnerabilities in a web application.",
   "What is the difference between synchronous and asynchronous programming?"]

/-- Situational pool of the question bank `QUESTIONS.situational`. -/
def QUESTIONS_situational : List String :=
  ["If you were assigned to a project with unclear requirements, how would you proceed?",
   "How would you handle a situation where your manager disagrees with your approach?",
   "If you discovered a critical bug right before a product launch, what would you do?",
   "How would you prioritize competing tasks when everything seems urgent?",
   "If a client requested a feature that would take significant time to build, how would you handle it?",
   "How would you onboard yourself in a new team with minimal documentation?",
   "If you noticed a colleague was struggling with their workload, what would you do?",
   "How would you handle a situation where the technology stack you're comfortable with isn't the best choice for a project?",
   "If stakeholders changed requirements mid-sprint, how would you respond?",
   "How would you approach giving negative feedback to a team member?",
   "If you were given a project with an impossible deadline, what would you do?",
   "How would you handle a situation where two team members have a conflict?",
   "If you discovered that a decision you advocated for was wrong, what would you do?",
   "How would you handle a situation where you need to learn a new technology quickly?",
   "If you were asked to cut corners on quality to meet a deadline, how would you respond?"]

/-- Mixed pool of the question bank `QUESTIONS.mixed`. -/
def QUESTIONS_mixed : List String :=
  ["Tell me about yourself and your experience in this field.",
   "What's a technical challenge you recently solved? Walk me through your approach.",
   "How do you stay current with industry trends and new technologies?",
   "Describe your ideal work environment and team culture.",
   "If you had to explain a complex technical concept to a non-technical stakeholder, how would you do it?",
   "Tell me about a time you had to balance quality with speed.",
   "What's your approach to code reviews and giving/receiving feedback?",
   "How would you handle a production outage at 2 AM?",
   "Describe a project where you had to collaborate across different teams.",
   "What do you consider your greatest professional strength and weakness?",
   "How do you approach problem-solving when you encounter something completely new?",
   "Tell me about a time you mentored someone or helped a colleague grow.",
   "What's the most impactful project you've worked on and why?",
   "How do you handle disagreements about technical decisions?",
   "Where do you see yourself professionally in the next 3-5 years?"]

/-- Value read by the property access `QUESTIONS[interviewType]`: one of the
four own array properties, a truthy non-array member inherited from
`Object.prototype` (for the keys of `objectProtoKeys`), or `undefined`. -/
inductive PoolProp where
  | arr (pool : List String)
  | inherited
  | undefined
deriving Repr, DecidableEq

/-- The property read `QUESTIONS[interviewType]` of `generateLocalQuestions`
(config/fallback.js line 87): the object literal has exactly the four own
properties; any other key falls through to `Object.prototype`, whose members
are truthy non-arrays; only a key absent there too reads `undefined`. -/
def questionsLookup (interviewType : String) : PoolProp :=
  if interviewType == "behavioral" then .arr QUESTIONS_behavioral
  else if interviewType == "technical" then .arr QUESTIONS_technical
  else if interviewType == "situational" then .arr QUESTIONS_situational
  else if interviewType == "mixed" then .arr QUESTIONS_mixed
  else if objectProtoKeys.contains interviewType then .inherited
  else .undefined

/-- Pool named by claims C3 and C5: the pool of the requested category, or
the mixed pool for an unrecognized one.  This is the claims' description of
the selection; the program's own lookup is `questionsLookup`, which can
additionally hit a truthy inherited `Object.prototype` member and then throw
on the spread. -/
def specPool (interviewType : String) : List String :=
  if interviewType == "behavioral" then QUESTIONS_behavioral
  else if interviewType == "technical" then QUESTIONS_technical
  else if interviewType == "situational" then QUESTIONS_situational
  else QUESTIONS_mixed

/-- One insertion step of the comparison sort
`[...pool].sort(() => Math.random() - 0.5)`.  Every comparator call ignores
its arguments and returns `Math.random() - 0.5`; a coin `true` models a
negative value (probability one half), which orders the inserted element
before the compared one, `false` a non-negative value.  ECMAScript leaves the
result of `sort` with an inconsistent comparator implementation-defined; the
model fixes the standard insertion sort (the algorithm engines use on small
arrays), consuming one coin per comparator call.  Should the finite coin
supply run out the element is placed in front (the statements proved below
supply enough coins for this case never to be reached, or hold for every coin
list). -/
def insertRand (x : α) : List α → List Bool → List α × List Bool
  | [], coins => ([x], coins)
  | h :: t, [] => (x :: h :: t, [])
  | h :: t, b :: coins =>
    if b then (x :: h :: t, coins)
    else ((insertRand x t coins).1.cons h, (insertRand x t coins).2)

/-- Insertion sort driven by the coin stream, the model of the shuffle step
of `generateLocalQuestions` (config/fallback.js line 88). -/
def sortRand : List α → List Bool → List α × List Bool
  | [], coins => ([], coins)
  | x :: rest, coins =>
    insertRand x (sortRand rest coins).1 (sortRand rest coins).2

/-- Shuffle step `[...pool].sort(() => Math.random() - 0.5)` under the coin
model. -/
def shuffleJS (pool : List String) (coins : List Bool) : List String :=
  (sortRand pool coins).1

/-- Replacement text `the ${jobRole} role` spliced in by
`generateLocalQuestions`. -/
def roleRepl (jobRole : String) : List Char :=
  ("the " ++ jobRole ++ " role").data

/-- GetSubstitution of `String.prototype.replace` applied to the replacement
string at one match site: scanning the replacement left to right, `$$`
yields a dollar sign, `$&` the matched text, a dollar sign followed by a
backquote (code 96) the portion of the subject before the match, and `$'`
(code 39) the portion after it; a dollar sign followed by anything else —
including `$1`-`$9`, since the regex has no capture groups — is literal.
The special characters are written by code point to keep the scanner of
this file simple. -/
def dollarSubst (matched before after : List Char) : List Char → List Char
  | [] => []
  | c :: rest =>
    if c == '$' then
      match rest with
      | [] => ['$']
      | c2 :: rest2 =>
        if c2 == '$' then '$' :: dollarSubst matched before after rest2
        else if c2 == '&' then matched ++ dollarSubst matched before after rest2
        else if c2 == Char.ofNat 96 then before ++ dollarSubst matched before after rest2
        else if c2 == Char.ofNat 39 then after ++ dollarSubst matched before after rest2
        else '$' :: c2 :: dollarSubst matched before after rest2
    else c :: dollarSubst matched before after rest

/-- Global case-insensitive replacement
`replace(/this role|this field|your experience/gi, repl)` on a character
list: scan left to right; at each position try the three alternatives in
order (as the regex alternation does); on a match emit the replacement with
its `$`-substitutions performed (`pre` is the already-scanned original
prefix the backquote substitution refers to) and resume after the matched
characters; otherwise copy one character.  The patterns are ASCII, for which
`Char.toLower` is the JS `i`-flag folding.  `fuel` bounds the number of scan
steps; every step consumes at least one subject character and exactly one
unit of fuel, so the top-level call, which supplies the subject length,
never reaches the exhaustion case. -/
def replaceScanF (repl : List Char) : Nat → List Char → List Char → List Char
  | 0, _, l => l
  | _ + 1, _, [] => []
  | fuel + 1, pre, c :: rest =>
    if ("this role".data).isPrefixOf (lowerAll (c :: rest)) then
      dollarSubst ((c :: rest).take 9) pre ((c :: rest).drop 9) repl
        ++ replaceScanF repl fuel (pre ++ (c :: rest).take 9) ((c :: rest).drop 9)
    else if ("this field".data).isPrefixOf (lowerAll (c :: rest)) then
      dollarSubst ((c :: rest).take 10) pre ((c :: rest).drop 10) repl
        ++ replaceScanF repl fuel (pre ++ (c :: rest).take 10) ((c :: rest).drop 10)
    else if ("your experience".data).isPrefixOf (lowerAll (c :: rest)) then
      dollarSubst ((c :: rest).take 15) pre ((c :: rest).drop 15) repl
        ++ replaceScanF repl fuel (pre ++ (c :: rest).take 15) ((c :: rest).drop 15)
    else c :: replaceScanF repl fuel (pre ++ [c]) rest

/-- The replacement
`selected[0].replace(/this role|this field|your experience/gi,
`` `the ${jobRole} role` ``)` of `generateLocalQuestions` (lines 93-96):
the template literal interpolates `jobRole` first, and `replace` then
applies GetSubstitution to that text at every match. -/
def roleReplaceJS (jobRole : String) (subject : List Char) : List Char :=
  replaceScanF (roleRepl jobRole) subject.length [] subject

/-- Post-processing of `generateLocalQuestions`: the first selected question
(when one exists) gets the role substitution, the rest are untouched. -/
def personalizeFirst (jobRole : String) : List String → List String
  | [] => []
  | q :: rest => String.mk (roleReplaceJS jobRole q.data) :: rest

/-- The `generateLocalQuestions` function of config/fallback.js (lines
86-100): read `QUESTIONS[interviewType] || QUESTIONS.mixed`, spread-copy and
shuffle the pool (coin model), take the first `numQuestions`, personalize
the first selected question.  When the lookup hits a truthy inherited
`Object.prototype` member, the spread `[...pool]` throws
`TypeError: pool is not iterable`, modelled as the error case. -/
def generateLocalQuestions (coins : List Bool) (jobRole interviewType : String)
    (numQuestions : Nat) : Except String (List String) :=
  match questionsLookup interviewType with
  | .arr pool =>
    .ok (personalizeFirst jobRole ((shuffleJS pool coins).take numQuestions))
  | .undefined =>
    .ok (personalizeFirst jobRole ((shuffleJS QUESTIONS_mixed coins).take numQuestions))
  | .inherited => .error "TypeError: pool is not iterable"

/-- All coin lists of a given length, each equally likely. -/
def boolVecs : Nat → List (List Bool)
  | 0 => [[]]
  | n + 1 => (boolVecs n).map (List.cons true) ++ (boolVecs n).map (List.cons false)

/-- Number of coin lists of length `n` on which the shuffle step turns `pool`
into `result`.  Since the coin lists of a given length are equally likely,
these counts are proportional to the probabilities of the outcomes. -/
def shuffleCount (pool : List String) (n : Nat) (result : List String) : Nat :=
  (boolVecs n).countP (fun v => shuffleJS pool v == result)

/-- Uniformity of the shuffle step on `pool` with coin budget `n`, as claim
C2 states it: every permutation of the pool is produced with equal
probability. -/
def UniformShuffle (pool : List String) (n : Nat) : Prop :=
  ∀ r1 r2 : List String, r1.Perm pool → r2.Perm pool →
    shuffleCount pool n r1 = shuffleCount pool n r2

/-- Reference score of claim C1, written from the claim's words: base 50,
stacking word-count bonuses over the number of whitespace-separated words,
sentence-count bonuses over the segments split on `.`, `!`, `?` that are
non-empty after trimming, +5 each for a digit, a specificity marker and a
structure marker (case-insensitive), capped at the difficulty ceiling and
floored at 30. -/
def specScore (answerText difficulty : String) : Nat :=
  let a := answerText.data
  let words := tokenCount (wsTrim a)
  let sentences := sentenceCount a
  let base := 50
    + (if words ≥ 20 then 5 else 0)
    + (if words ≥ 50 then 10 else 0)
    + (if words ≥ 100 then 5 else 0)
    + (if words ≥ 150 then 5 else 0)
    + (if sentences ≥ 2 then 5 else 0)
    + (if sentences ≥ 4 then 5 else 0)
    + (if a.any Char.isDigit then 5 else 0)
    + (if hasMarker specificityMarkers a then 5 else 0)
    + (if hasMarker structureMarkers a then 5 else 0)
  max (min base (specCap difficulty)) 30

/-- Test whether one of the three replacement patterns of
`generateLocalQuestions` matches at the head of the character list
(case-insensitively). -/
def hitAt (l : List Char) : Bool :=
  ("this role".data).isPrefixOf (lowerAll l)
  || ("this field".data).isPrefixOf (lowerAll l)
  || ("your experience".data).isPrefixOf (lowerAll l)

/-- No replacement pattern matches at any position of the list. -/
def noHit : List Char → Bool
  | [] => true
  | c :: rest => !hitAt (c :: rest) && noHit rest

/-- No replacement pattern matches at any of the first `k` positions. -/
def noHitBefore : Nat → List Char → Bool
  | 0, _ => true
  | _ + 1, [] => true
  | k + 1, c :: rest => !hitAt (c :: rest) && noHitBefore k rest

/-- Decidable freshness condition on a question pool: every question either
contains no replacement pattern at all, or keeps its first 15 characters
under the replacement and differs from every other pool question within those
15 characters.  It guarantees that personalizing one selected question can
never collide with another selected question, whatever the job role. -/
def freshPool (pool : List String) : Bool :=
  pool.all fun q =>
    noHit q.data ||
    (noHitBefore 15 q.data
      && pool.all fun r => r == q || !(r.data.take 15 == q.data.take 15))

/-- Score-to-grade helper of routes/interview.js (lines 272-278). -/
def InterviewRoute.scoreToGrade (score : Int) : String :=
  if score ≥ 85 then "Excellent"
  else if score ≥ 70 then "Good"
  else if score ≥ 55 then "Average"
  else if score ≥ 40 then "Needs Improvement"
  else "Poor"

/-- Score-to-grade helper of routes/report.js (lines 385-391). -/
def ReportRoute.scoreToGrade (score : Int) : String :=
  if score ≥ 85 then "Excellent"
  else if score ≥ 70 then "Good"
  else if score ≥ 55 then "Average"
  else if score ≥ 40 then "Needs Improvement"
  else "Poor"

/-- Score-to-grade mapping of claim C4, written from the claim's thresholds. -/
def specGrade (score : Int) : String :=
  if score ≥ 85 then "Excellent"
  else if score ≥ 70 then "Good"
  else if score ≥ 55 then "Average"
  else if score ≥ 40 then "Needs Improvement"
  else "Poor"

/-- One question/answer row as `generateReportLocally` receives it: the
`score` column of the answers table, which can be absent (`null`). -/
structure QA where
  score : Option Int
deriving Repr, DecidableEq

/-- JS truthiness of a score value: `null`/`undefined` and `0` are falsy,
every other number is truthy.  This is the test `qa => qa.score` of the
filter in `generateReportLocally`. -/
def scoreTruthy : Option Int → Bool
  | none => false
  | some v => v != 0

/-- The scores `qas.filter(qa => qa.score).map(qa => qa.score)` that
`generateReportLocally` includes in its average. -/
def includedScores (qas : List QA) : List Int :=
  (qas.filter (fun qa => scoreTruthy qa.score)).map (fun qa => qa.score.getD 0)

/-- Average of `generateReportLocally` (config/fallback.js lines 166-169):
`scores.length ? Math.round(sum / scores.length) : 60`.  `Math.round` on the
exact rational value is Mathlib's `round` (floor of the value plus one
half). -/
def localAvgScore (qas : List QA) : Int :=
  let scores := includedScores qas
  if scores.length ≠ 0 then
    round (((scores.foldl (· + ·) 0 : Int) : ℚ) / (scores.length : ℚ))
  else 60

/-- Columns of the interviews row that `generateReportLocally` reads. -/
structure InterviewRow where
  job_role : String
  interview_type : String

/-- Jitter `Math.floor(Math.random() * range * 2 - range)` of the `vary`
helper, as a function of the uniform draw `r` in `[0,1)`. -/
def varyJitter (range : Nat) (r : ℚ) : Int :=
  Int.floor (r * range * 2 - range)

/-- The `vary` helper of `generateReportLocally` (config/fallback.js line
178): `Math.min(100, Math.max(0, base + Math.floor(Math.random()*range*2 -
range)))`, with the draw made explicit. -/
def vary (base : Int) (range : Nat) (r : ℚ) : Int :=
  min 100 (max 0 (base + varyJitter range r))

/-- The five `Math.random()` draws consumed by one `generateReportLocally`
call, one per sub-skill, in source order. -/
structure JitterDraws where
  communication : ℚ
  relevance : ℚ
  confidence : ℚ
  structureDraw : ℚ
  depth : ℚ

/-- Report record of `generateReportLocally`.  The source field `structure`
is a Lean keyword and is embedded as `structureScore`. -/
structure LocalReport where
  overallScore : Int
  grade : String
  communication : Int
  relevance : Int
  confidence : Int
  structureScore : Int
  depth : Int
  strengths : List String
  improvements : List String
  recommendation : String

/-- The `generateReportLocally` function of config/fallback.js (lines
165-200), with the five jitter draws made explicit. -/
def generateReportLocally (interview : InterviewRow) (qas : List QA)
    (rnd : JitterDraws) : LocalReport :=
  let avgScore := localAvgScore qas
  let grade :=
    if avgScore ≥ 85 then "Excellent"
    else if avgScore ≥ 70 then "Good"
    else if avgScore ≥ 55 then "Average"
    else if avgScore ≥ 40 then "Needs Improvement"
    else "Poor"
  { overallScore := avgScore
  , grade := grade
  , communication := vary avgScore 10 rnd.communication
  , relevance := vary avgScore 10 rnd.relevance
  , confidence := vary avgScore 8 rnd.confidence
  , structureScore := vary avgScore 10 rnd.structureDraw
  , depth := vary avgScore 12 rnd.depth
  , strengths :=
      ["You completed the interview and attempted all questions.",
       "Your responses showed clarity of thought.",
       "You demonstrated relevant domain knowledge."]
  , improvements :=
      ["Practice structuring answers using the STAR method.",
       "Include more specific, quantified examples from your experience.",
       "Research the " ++ interview.job_role ++ " role more deeply before interviews."]
  , recommendation :=
      "Keep practicing with mock interviews regularly. Focus on building depth in your "
      ++ interview.interview_type
      ++ " responses. Use structured frameworks like STAR or SOAR to organize your thoughts. With consistent practice, you can improve your score significantly." }

/-- Support claimed by C8 for the sub-skill jitter: `uniformRandomInt(-range,
+range)` means every integer from `-range` to `+range` inclusive is a
possible draw, so each such offset must be realizable by some uniform draw
`r` in `[0,1)`. -/
def ClaimedJitterSupport (range : Nat) : Prop :=
  ∀ d : Int, -(range : Int) ≤ d → d ≤ (range : Int) →
    ∃ r : ℚ, 0 ≤ r ∧ r < 1 ∧ varyJitter range r = d

/-- Claim C8's jitter model for the three ranges it names (10 for
communication, relevance and structure, 8 for confidence, 12 for depth). -/
def C8JitterClaim : Prop :=
  ClaimedJitterSupport 10 ∧ ClaimedJitterSupport 8 ∧ ClaimedJitterSupport 12

/-- Proctoring state of voicehire-frontend/app.js: the module globals
`proctorActive`, `proctorWarnings`, `proctorCooldown`. -/
structure ProctorState where
  active : Bool
  warnings : Nat
  cooldown : Bool
deriving Repr, DecidableEq

/-- The constant `MAX_PROCTOR_WARNINGS` of app.js. -/
def MAX_PROCTOR_WARNINGS : Nat := 3

/-- User-visible outcome emitted by one violation: `showProctorWarning(reason,
count)` or `showInterviewTerminated(reason)`. -/
inductive ProctorEmit where
  | warning (reason : String) (count : Nat)
  | terminated (reason : String)
deriving Repr, DecidableEq

/-- The `startProctoring` function of app.js (lines 735-755): a no-op when
already active, otherwise it activates and resets the warning count and the
cooldown. -/
def startProctoring (s : ProctorState) : ProctorState :=
  if s.active then s
  else { active := true, warnings := 0, cooldown := false }

/-- The `stopProctoring` function of app.js (lines 757-773): a no-op when
inactive, otherwise it deactivates (warning count and cooldown keep their
values; the cooldown timer, once scheduled, later clears the flag on its
own). -/
def stopProctoring (s : ProctorState) : ProctorState :=
  if !s.active then s else { s with active := false }

/-- The `handleProctorViolation` function of app.js (lines 853-872): a no-op
when inactive or during the cooldown; otherwise it increments the warning
count, engages the cooldown, and either shows a warning or — when the count
reaches `MAX_PROCTOR_WARNINGS` — shows the termination modal, whose handler
`showInterviewTerminated` immediately calls `stopProctoring`. -/
def handleProctorViolation (s : ProctorState) (reason : String) :
    ProctorState × Option ProctorEmit :=
  if !s.active || s.cooldown then (s, none)
  else
    let warnings := s.warnings + 1
    let s1 : ProctorState := { s with warnings := warnings, cooldown := true }
    if warnings ≥ MAX_PROCTOR_WARNINGS then
      (stopProctoring s1, some (.terminated reason))
    else (s1, some (.warning reason warnings))

/-- Events driving the proctoring state within one session: a detected
violation (tab switch, window blur, frame motion), the 8-second cooldown
timer firing, and explicit activation/deactivation.  The browser runs their
handlers to completion one at a time. -/
inductive ProctorEvent where
  | violation (reason : String)
  | cooldownEnd
  | activate
  | deactivate

/-- One event step of the proctoring policy. -/
def stepProctor (s : ProctorState) : ProctorEvent → ProctorState × Option ProctorEmit
  | .violation r => handleProctorViolation s r
  | .cooldownEnd => ({ s with cooldown := false }, none)
  | .activate => (startProctoring s, none)
  | .deactivate => (stopProctoring s, none)

/-- Run of a sequence of proctoring events, collecting the emitted warnings
and terminations in order. -/
def runProctor (s : ProctorState) : List ProctorEvent → ProctorState × List ProctorEmit
  | [] => (s, [])
  | e :: es =>
    ((runProctor (stepProctor s e).1 es).1,
      (stepProctor s e).2.toList ++ (runProctor (stepProctor s e).1 es).2)

/-- Request body of `POST /api/interview/:id/answer`: both fields can be
absent from the JSON. -/
structure AnswerBody where
  questionId : Option Int
  answerText : Option String

/-- Observable side effects of the answer route, in the order the handler
would perform them: the external evaluation attempt, the local fallback
evaluation, and the INSERT of the answer row. -/
inductive AnswerEffect where
  | geminiEvaluate
  | localEvaluate
  | dbInsertAnswer
deriving Repr, DecidableEq

/-- Reply sent by the answer route (status code and message; the success
payload is abstracted to its presence). -/
structure RouteReply where
  status : Nat
  message : String
deriving Repr, DecidableEq

/-- The guard `!questionId || !answerText || answerText.trim().length < 5` of
routes/interview.js line 114.  A missing field reads `undefined` (falsy); a
present `questionId` of `0` and an empty `answerText` are also falsy. -/
def answerBodyInvalid (body : AnswerBody) : Bool :=
  (match body.questionId with
   | none => true
   | some q => q == 0)
  || (match body.answerText with
      | none => true
      | some a => a == "" || (wsTrim a.data).length < 5)

/-- The `POST /api/interview/:id/answer` handler of routes/interview.js
(lines 110-174), with the database lookups and the external service
abstracted to their outcomes, and the effects it performs listed in order:
validation first, then the ownership and question lookups, then the
evaluation (external, falling back to local) and the INSERT of the answer. -/
def answerRoute (body : AnswerBody) (interviewFound questionFound geminiOk : Bool) :
    RouteReply × List AnswerEffect :=
  if answerBodyInvalid body then
    ({ status := 400
     , message := "questionId and answerText (min 5 chars) are required." }, [])
  else if !interviewFound then
    ({ status := 404, message := "Interview not found." }, [])
  else if !questionFound then
    ({ status := 404, message := "Question not found." }, [])
  else if geminiOk then
    ({ status := 200, message := "answer evaluated" },
      [.geminiEvaluate, .dbInsertAnswer])
  else
    ({ status := 200, message := "answer evaluated" },
      [.geminiEvaluate, .localEvaluate, .dbInsertAnswer])

/-- Claim C1 as stated: for every non-empty answer and every difficulty, the
score of `evaluateAnswerLocally` is the (numeric) reference score, capped and
floored.  False of the program: a difficulty naming an inherited
`Object.prototype` member makes the cap read a truthy non-number and the
score `NaN`. -/
def C1ScoreClaim : Prop :=
  ∀ (q a d : String) (r1 r2 r3 : Nat), a ≠ "" →
    (evaluateAnswerLocally q a d r1 r2 r3).score = JSNum.num (specScore a d)

/-- Claim C3's "never throws" as stated: every request yields a question
list.  False of the program: an `interviewType` naming an inherited
`Object.prototype` member makes `[...pool]` throw. -/
def C3NeverThrows : Prop :=
  ∀ (coins : List Bool) (jobRole interviewType : String) (numQuestions : Nat),
    ∃ qs, generateLocalQuestions coins jobRole interviewType numQuestions
      = Except.ok qs

/-- Claim C5's replacement text as stated: every occurrence is replaced by
the literal text `the {jobRole} role`, whatever the job role.  False of the
program: `String.prototype.replace` performs `$`-substitution on the
replacement string. -/
def C5LiteralReplacement : Prop :=
  ∀ (jobRole : String) (matched before after : List Char),
    dollarSubst matched before after (roleRepl jobRole) = roleRepl jobRole

/-! Helper lemmas shared by the claim theorems. -/

theorem capOrDefault_of_not_proto (d : String)
    (hd : objectProtoKeys.contains d = false) :
    capOrDefault d = CapsProp.num (specCap d) := by
  unfold capOrDefault capsLookup specCap
  repeat' split <;> simp_all

theorem evaluateScore_eq_specScore (a d : String)
    (hd : objectProtoKeys.contains d = false) :
    evaluateScore a d = JSNum.num (specScore a d) := by
  unfold evaluateScore specScore jsWordCount
  rw [capOrDefault_of_not_proto d hd]
  by_cases h : wsTrim a.data = []
  · simp [h, tokenCount, jsMin, jsMax30]
  · simp [h, jsMin, jsMax30]

theorem specCap_ge_30 (d : String) : 30 ≤ specCap d := by
  unfold specCap
  repeat' split
  all_goals omega

theorem insertRand_perm (x : α) : ∀ (l : List α) (coins : List Bool),
    (insertRand x l coins).1.Perm (x :: l) := by
  intro l
  induction l with
  | nil => intro coins; simp [insertRand]
  | cons h t ih =>
    intro coins
    cases coins with
    | nil => simp [insertRand]
    | cons b cs =>
      simp only [insertRand]
      split
      · exact List.Perm.refl _
      · exact ((ih cs).cons h).trans (List.Perm.swap x h t)

theorem sortRand_perm : ∀ (l : List α) (coins : List Bool),
    (sortRand l coins).1.Perm l := by
  intro l
  induction l with
  | nil => intro coins; simp [sortRand]
  | cons x rest ih =>
    intro coins
    simp only [sortRand]
    exact (insertRand_perm x _ _).trans ((ih coins).cons x)

theorem boolVecs_length (n : Nat) : (boolVecs n).length = 2 ^ n := by
  induction n with
  | zero => rfl
  | succ n ih =>
    simp [boolVecs, ih]
    ring

theorem sum_map_add {β : Type} (rs : List β) (a b : β → Nat) :
    (rs.map (fun r => a r + b r)).sum = (rs.map a).sum + (rs.map b).sum := by
  induction rs with
  | nil => rfl
  | cons r rs ih =>
    simp [ih]
    omega

theorem sum_map_ite_zero {β : Type} [BEq β] [LawfulBEq β] (x : β) :
    ∀ (rs : List β), x ∉ rs →
      (rs.map (fun r => if x == r then 1 else 0)).sum = 0 := by
  intro rs
  induction rs with
  | nil => intro; rfl
  | cons r rs ih =>
    intro hx
    have hxr : (x == r) = false := by
      simp only [List.mem_cons, not_or] at hx
      exact beq_false_of_ne hx.1
    simp [hxr, ih (by simp only [List.mem_cons, not_or] at hx; exact hx.2)]

theorem sum_map_ite_one {β : Type} [BEq β] [LawfulBEq β] (x : β) :
    ∀ (rs : List β), rs.Nodup → x ∈ rs →
      (rs.map (fun r => if x == r then 1 else 0)).sum = 1 := by
  intro rs
  induction rs with
  | nil => intro _ h; cases h
  | cons r rs ih =>
    intro hnd hx
    rcases List.mem_cons.mp hx with h | h
    · subst h
      have hout : x ∉ rs := (List.nodup_cons.mp hnd).1
      simp [sum_map_ite_zero x rs hout]
    · have hxr : (x == r) = false := by
        refine beq_false_of_ne (fun he => ?_)
        subst he
        exact (List.nodup_cons.mp hnd).1 h
      simp [hxr, ih (List.nodup_cons.mp hnd).2 h]

theorem countP_partition {V β : Type} [BEq β] [LawfulBEq β] (f : V → β) :
    ∀ (vs : List V) (rs : List β), rs.Nodup → (∀ v ∈ vs, f v ∈ rs) →
      (rs.map (fun r => vs.countP (fun v => f v == r))).sum = vs.length := by
  intro vs
  induction vs with
  | nil =>
    intro rs _ _
    simp [List.countP_nil]
  | cons v vs ih =>
    intro rs hnd hmem
    have h1 : ∀ r, (v :: vs).countP (fun w => f w == r)
        = vs.countP (fun w => f w == r) + (if f v == r then 1 else 0) := by
      intro r
      rw [List.countP_cons]
    calc (rs.map (fun r => (v :: vs).countP (fun w => f w == r))).sum
        = (rs.map (fun r => vs.countP (fun w => f w == r)
            + (if f v == r then 1 else 0))).sum := by
          congr 1
          exact List.map_congr_left (fun r _ => h1 r)
      _ = (rs.map (fun r => vs.countP (fun w => f w == r))).sum
            + (rs.map (fun r => if f v == r then 1 else 0)).sum :=
          sum_map_add rs _ _
      _ = vs.length + 1 := by
          rw [ih rs hnd (fun w hw => hmem w (List.mem_cons_of_mem _ hw)),
            sum_map_ite_one (f v) rs hnd (hmem v (List.mem_cons_self _ _))]
      _ = (v :: vs).length := by simp

theorem sum_map_const {β : Type} (c : Nat) :
    ∀ (rs : List β), (rs.map (fun _ => c)).sum = rs.length * c := by
  intro rs
  induction rs with
  | nil => simp
  | cons r rs ih =>
    simp [ih]
    ring

theorem replaceScanF_of_noHit (repl : List Char) :
    ∀ (l : List Char) (fuel : Nat) (pre : List Char),
      noHit l = true → l.length ≤ fuel → replaceScanF repl fuel pre l = l := by
  intro l
  induction l with
  | nil =>
    intro fuel pre _ _
    cases fuel <;> rfl
  | cons c rest ih =>
    intro fuel pre h hlen
    cases fuel with
    | zero => simp at hlen
    | succ f =>
      simp only [noHit, Bool.and_eq_true, Bool.not_eq_true'] at h
      have hh := h.1
      simp only [hitAt, Bool.or_eq_false_iff] at hh
      simp only [replaceScanF, hh.1.1, hh.1.2, hh.2, Bool.false_eq_true, if_false]
      rw [ih f (pre ++ [c]) h.2 (by simpa using hlen)]

theorem replaceScanF_take (repl : List Char) :
    ∀ (l : List Char) (fuel : Nat) (pre : List Char) (k : Nat),
      noHitBefore k l = true → l.length ≤ fuel →
      (replaceScanF repl fuel pre l).take k = l.take k := by
  intro l
  induction l with
  | nil =>
    intro fuel pre k _ _
    cases fuel <;> rfl
  | cons c rest ih =>
    intro fuel pre k h hlen
    cases fuel with
    | zero => simp at hlen
    | succ f =>
      cases k with
      | zero => rfl
      | succ k =>
        simp only [noHitBefore, Bool.and_eq_true, Bool.not_eq_true'] at h
        have hh := h.1
        simp only [hitAt, Bool.or_eq_false_iff] at hh
        simp only [replaceScanF, hh.1.1, hh.1.2, hh.2, Bool.false_eq_true, if_false]
        simp only [List.take_succ_cons]
        rw [ih f (pre ++ [c]) k h.2 (by simpa using hlen)]

theorem specPool_cases (it : String) :
    specPool it = QUESTIONS_behavioral ∨ specPool it = QUESTIONS_technical
    ∨ specPool it = QUESTIONS_situational ∨ specPool it = QUESTIONS_mixed := by
  unfold specPool
  repeat' split
  · exact Or.inl rfl
  · exact Or.inr (Or.inl rfl)
  · exact Or.inr (Or.inr (Or.inl rfl))
  · exact Or.inr (Or.inr (Or.inr rfl))

theorem freshPool_spec (it : String) : freshPool (specPool it) = true := by
  rcases specPool_cases it with h | h | h | h <;> rw [h] <;> decide

theorem nodup_spec (it : String) : (specPool it).Nodup := by
  rcases specPool_cases it with h | h | h | h <;> rw [h] <;> decide

theorem generateLocalQuestions_ok (coins : List Bool)
    (jobRole interviewType : String) (n : Nat)
    (hp : objectProtoKeys.contains interviewType = false) :
    generateLocalQuestions coins jobRole interviewType n
      = Except.ok (personalizeFirst jobRole
          ((shuffleJS (specPool interviewType) coins).take n)) := by
  by_cases h1 : interviewType = "behavioral"
  · simp [generateLocalQuestions, questionsLookup, specPool, h1]
  · by_cases h2 : interviewType = "technical"
    · simp [generateLocalQuestions, questionsLookup, specPool, h1, h2]
    · by_cases h3 : interviewType = "situational"
      · simp [generateLocalQuestions, questionsLookup, specPool, h1, h2, h3]
      · by_cases h4 : interviewType = "mixed"
        · simp [generateLocalQuestions, questionsLookup, specPool, h1, h2, h3, h4]
        · have hp2 : interviewType ∉ objectProtoKeys := by simpa using hp
          simp [generateLocalQuestions, questionsLookup, specPool, h1, h2, h3, h4, hp2]

theorem dollarSubst_of_noDollar (matched before after : List Char) :
    ∀ repl : List Char, repl.all (fun c => !(c == '$')) = true →
      dollarSubst matched before after repl = repl := by
  intro repl
  induction repl with
  | nil => intro _; rfl
  | cons c rest ih =>
    intro h
    simp only [List.all_cons, Bool.and_eq_true, Bool.not_eq_true'] at h
    rw [dollarSubst.eq_def]
    simp only [h.1, Bool.false_eq_true, if_false]
    rw [ih h.2]

theorem noDollar_roleRepl (jobRole : String)
    (h : jobRole.data.all (fun c => !(c == '$')) = true) :
    (roleRepl jobRole).all (fun c => !(c == '$')) = true := by
  show (("the " ++ jobRole ++ " role").data).all (fun c => !(c == '$')) = true
  have hdata : ("the " ++ jobRole ++ " role").data
      = "the ".data ++ jobRole.data ++ " role".data := rfl
  rw [hdata, List.all_append, List.all_append]
  simp [h]

theorem personalized_fresh (pool : List String) (hfp : freshPool pool = true)
    (repl : List Char) (q : String) (rest : List String)
    (hq : q ∈ pool) (hrest : ∀ r ∈ rest, r ∈ pool) (hqrest : q ∉ rest) :
    String.mk (replaceScanF repl q.data.length [] q.data) ∉ rest := by
  intro hmem
  have hall := List.all_eq_true.mp hfp q hq
  rcases Bool.or_eq_true_iff.mp hall with hnh | hfresh
  · rw [replaceScanF_of_noHit repl q.data q.data.length [] hnh (le_refl _)] at hmem
    have heta : String.mk q.data = q := by cases q; rfl
    rw [heta] at hmem
    exact hqrest hmem
  · rw [Bool.and_eq_true] at hfresh
    have h15 := hfresh.1
    have hothers := hfresh.2
    have hrq : String.mk (replaceScanF repl q.data.length [] q.data) ∈ pool :=
      hrest _ hmem
    have hcase := List.all_eq_true.mp hothers _ hrq
    rcases Bool.or_eq_true_iff.mp hcase with heq | hne
    · have heqq : String.mk (replaceScanF repl q.data.length [] q.data) = q :=
        eq_of_beq heq
      rw [heqq] at hmem
      exact hqrest hmem
    · have htk : (String.mk (replaceScanF repl q.data.length [] q.data)).data.take 15
          = q.data.take 15 :=
        replaceScanF_take repl q.data q.data.length [] 15 h15 (le_refl _)
      rw [Bool.not_eq_true', beq_eq_false_iff_ne] at hne
      exact hne htk

theorem personalizeFirst_length (jobRole : String) :
    ∀ l : List String, (personalizeFirst jobRole l).length = l.length := by
  intro l
  cases l <;> rfl

theorem personalizeFirst_nodup (jobRole : String) (pool : List String)
    (hfp : freshPool pool = true) (l : List String)
    (hl : l.Nodup) (hmem : ∀ r ∈ l, r ∈ pool) :
    (personalizeFirst jobRole l).Nodup := by
  cases l with
  | nil => exact List.nodup_nil
  | cons q rest =>
    rw [personalizeFirst, List.nodup_cons]
    have hqrest : q ∉ rest := (List.nodup_cons.mp hl).1
    exact ⟨personalized_fresh pool hfp _ q rest (hmem q (List.mem_cons_self _ _))
      (fun r hr => hmem r (List.mem_cons_of_mem _ hr)) hqrest,
      (List.nodup_cons.mp hl).2⟩

theorem violation_noop (s : ProctorState) (r : String)
    (h : s.active = false ∨ s.cooldown = true) :
    handleProctorViolation s r = (s, none) := by
  unfold handleProctorViolation
  rcases h with h | h <;> simp [h]

theorem runProctor_inactive :
    ∀ (evs : List ProctorEvent) (s : ProctorState), s.active = false →
      (∀ e ∈ evs, e ≠ ProctorEvent.activate) →
      (runProctor s evs).2 = [] ∧ (runProctor s evs).1.active = false
      ∧ (runProctor s evs).1.warnings = s.warnings := by
  intro evs
  induction evs with
  | nil => intro s hs _; exact ⟨rfl, hs, rfl⟩
  | cons e es ih =>
    intro s hs hna
    have hstep : (stepProctor s e).2 = none
        ∧ (stepProctor s e).1.active = false
        ∧ (stepProctor s e).1.warnings = s.warnings := by
      cases e with
      | violation r =>
        rw [stepProctor, violation_noop s r (Or.inl hs)]
        exact ⟨rfl, hs, rfl⟩
      | cooldownEnd => exact ⟨rfl, hs, rfl⟩
      | activate => exact absurd rfl (hna _ (List.mem_cons_self _ _))
      | deactivate =>
        rw [stepProctor, stopProctoring, if_pos (by rw [hs]; rfl)]
        exact ⟨rfl, hs, rfl⟩
    have ihe := ih (stepProctor s e).1 hstep.2.1
      (fun e' he' => hna e' (List.mem_cons_of_mem _ he'))
    refine ⟨?_, ihe.2.1, ?_⟩
    · show (stepProctor s e).2.toList ++ (runProctor (stepProctor s e).1 es).2 = []
      rw [hstep.1, ihe.1]
      rfl
    · show (runProctor (stepProctor s e).1 es).1.warnings = s.warnings
      rw [ihe.2.2, hstep.2.2]

theorem includedScores_cons (qa : QA) (qas : List QA) :
    includedScores (qa :: qas)
      = if scoreTruthy qa.score then qa.score.getD 0 :: includedScores qas
        else includedScores qas := by
  unfold includedScores
  rw [List.filter_cons]
  split <;> simp_all

theorem scoreTruthy_false_of (qa : QA) (h : qa.score = some 0 ∨ qa.score = none) :
    scoreTruthy qa.score = false := by
  rcases h with h | h <;> rw [h] <;> rfl

theorem includedScores_nil_of_zero : ∀ qas : List QA,
    (∀ qa ∈ qas, qa.score = some 0 ∨ qa.score = none) → includedScores qas = [] := by
  intro qas
  induction qas with
  | nil => intro _; rfl
  | cons qa qas ih =>
    intro h
    rw [includedScores_cons]
    rw [scoreTruthy_false_of qa (h qa (List.mem_cons_self _ _))]
    simp only [Bool.false_eq_true, if_false]
    exact ih (fun q hq => h q (List.mem_cons_of_mem _ hq))

theorem varyJitter_bounds (range : Nat) (r : ℚ) (hpos : 0 < range)
    (h0 : 0 ≤ r) (h1 : r < 1) :
    -(range : Int) ≤ varyJitter range r ∧ varyJitter range r ≤ (range : Int) - 1 := by
  have hq : (0 : ℚ) < (range : ℚ) := by exact_mod_cast hpos
  constructor
  · apply Int.le_floor.mpr
    push_cast
    nlinarith
  · have hlt : varyJitter range r < (range : Int) := by
      apply Int.floor_lt.mpr
      push_cast
      nlinarith
    omega

theorem vary_bounds (base : Int) (range : Nat) (r : ℚ) :
    0 ≤ vary base range r ∧ vary base range r ≤ 100 := by
  unfold vary
  refine ⟨le_min (by norm_num) ?_, min_le_left _ _⟩
  exact le_max_left 0 _

/-! The claim theorems. -/

/-- Counterexample to claim C1: for the user-reachable difficulty string
"constructor" the property read `caps[difficulty]` finds the truthy
`Object.prototype.constructor` rather than `undefined`, `Math.min` on that
non-number is `NaN`, and the score of `evaluateAnswerLocally` is `NaN` —
neither equal to the reference score nor within `[30, cap]` nor capped at
the default 90. -/
theorem C1_counterexample_prototype_cap : ¬ C1ScoreClaim := by
  intro h
  have hc := h "Q" "Hi" "constructor" 0 0 0 (by decide)
  exact absurd hc (by decide)

/-- Claim C1, amended: for every non-empty `answerText` and every difficulty
string that does not name an inherited `Object.prototype` member,
`evaluateAnswerLocally` returns a score equal to the reference definition of
the claim (base 50 plus the stacking word-count, sentence-count and keyword
bonuses, capped at the difficulty ceiling — 90 for an unrecognized,
non-inherited difficulty — and floored at 30); that score is always within
`[30, cap difficulty]`; and two calls with identical `answerText` and
difficulty yield identical scores whatever the random phrase draws (and
whatever the question text).  For a difficulty naming an `Object.prototype`
member the score degenerates to `NaN` instead (see the counterexample). -/
theorem C1_amended_score_spec (q a d : String)
    (r1 r2 r3 s1 s2 s3 : Nat) (h : a ≠ "")
    (hd : objectProtoKeys.contains d = false) :
    (evaluateAnswerLocally q a d r1 r2 r3).score = JSNum.num (specScore a d)
    ∧ 30 ≤ specScore a d
    ∧ specScore a d ≤ specCap d
    ∧ (evaluateAnswerLocally q a d r1 r2 r3).score
        = (evaluateAnswerLocally q a d s1 s2 s3).score := by
  refine ⟨evaluateScore_eq_specScore a d hd, ?_, ?_, rfl⟩
  · unfold specScore
    exact Nat.le_max_right _ _
  · unfold specScore
    exact max_le (min_le_right _ _) (specCap_ge_30 d)

/-- Witness for C1 at a concrete answer and difficulty. -/
theorem C1_witness :
    (evaluateAnswerLocally "Q" "Hi there. I fixed it." "Easy" 0 1 2).score
      = JSNum.num (specScore "Hi there. I fixed it." "Easy") :=
  (C1_amended_score_spec "Q" "Hi there. I fixed it." "Easy"
    0 1 2 3 4 5 (by decide) (by decide)).1

/-- Counterexample to claim C2: the shuffle step
`[...pool].sort(() => Math.random() - 0.5)` is not a uniformly-random
permutation of the behavioral pool.  Under the coin model (one fair coin per
comparator call, insertion sort, 105 coins — enough for every comparison the
sort of a 15-element pool can make), uniformity would force the number of
distinct permutations (15 factorial) times a common count to equal the
number of coin lists (2 to the 105), which is impossible since 3 divides 15
factorial but no power of 2.  The same argument applies to each of the four
pools. -/
theorem C2_counterexample_shuffle_not_uniform :
    ¬ UniformShuffle QUESTIONS_behavioral 105 := by
  intro h
  have hnd : QUESTIONS_behavioral.Nodup := by decide
  have hmem : ∀ v ∈ boolVecs 105,
      shuffleJS QUESTIONS_behavioral v ∈ QUESTIONS_behavioral.permutations := by
    intro v _
    exact List.mem_permutations.mpr (sortRand_perm QUESTIONS_behavioral v)
  have hpermnd : QUESTIONS_behavioral.permutations.Nodup :=
    List.nodup_permutations QUESTIONS_behavioral hnd
  have htot : (QUESTIONS_behavioral.permutations.map
      (fun r => shuffleCount QUESTIONS_behavioral 105 r)).sum
      = (boolVecs 105).length :=
    countP_partition (fun v => shuffleJS QUESTIONS_behavioral v) (boolVecs 105)
      QUESTIONS_behavioral.permutations hpermnd hmem
  have hconst : ∀ r ∈ QUESTIONS_behavioral.permutations,
      shuffleCount QUESTIONS_behavioral 105 r
        = shuffleCount QUESTIONS_behavioral 105 QUESTIONS_behavioral := by
    intro r hr
    exact h r QUESTIONS_behavioral (List.mem_permutations.mp hr) (List.Perm.refl _)
  rw [List.map_congr_left hconst, sum_map_const, List.length_permutations,
    boolVecs_length] at htot
  have hlen : QUESTIONS_behavioral.length = 15 := by decide
  rw [hlen] at htot
  have h3 : (3 : ℕ) ∣ Nat.factorial 15 := by decide
  have h3' : (3 : ℕ) ∣ 2 ^ 105 := by
    rw [← htot]
    exact Dvd.dvd.mul_right h3 _
  have hnot : ¬ (3 : ℕ) ∣ 2 ^ 105 := by decide
  exact hnot h3'

/-- Claim C2, amended: the shuffle step always produces a permutation of the
pool (so the later truncation selects distinct pool questions), but the
permutation is not uniformly distributed — the random-comparator sort is a
biased shuffle (see the counterexample). -/
theorem C2_amended_shuffle_permutes (pool : List String) (coins : List Bool) :
    (shuffleJS pool coins).Perm pool :=
  sortRand_perm pool coins

/-- Counterexample to claim C3: for the user-reachable category string
"constructor" the property read `QUESTIONS[interviewType]` finds the truthy
`Object.prototype.constructor` rather than `undefined`, so the mixed-pool
fallback is not taken and the spread `[...pool]` throws — the claimed
"never throws" fails. -/
theorem C3_counterexample_prototype_throw : ¬ C3NeverThrows := by
  intro h
  obtain ⟨qs, hqs⟩ := h [] "Nurse" "constructor" 3
  rw [show generateLocalQuestions [] "Nurse" "constructor" 3
      = Except.error "TypeError: pool is not iterable" from rfl] at hqs
  exact Except.noConfusion hqs

/-- Claim C3, amended: for positive `numQuestions` and every `interviewType`
that does not name an inherited `Object.prototype` member,
`generateLocalQuestions` succeeds and returns exactly
`min numQuestions poolSize` questions with no duplicates and a non-empty
list (every pool of the bank is non-empty); an unrecognized such
`interviewType` selects the mixed pool.  An `interviewType` naming an
`Object.prototype` member instead makes the pool spread throw (see the
counterexample). -/
theorem C3_amended_count_nodup (coins : List Bool)
    (jobRole interviewType : String) (n : Nat) (hn : 0 < n)
    (hp : objectProtoKeys.contains interviewType = false) :
    generateLocalQuestions coins jobRole interviewType n
      = Except.ok (personalizeFirst jobRole
          ((shuffleJS (specPool interviewType) coins).take n))
    ∧ (personalizeFirst jobRole
        ((shuffleJS (specPool interviewType) coins).take n)).length
        = min n (specPool interviewType).length
    ∧ (personalizeFirst jobRole
        ((shuffleJS (specPool interviewType) coins).take n)).Nodup
    ∧ personalizeFirst jobRole
        ((shuffleJS (specPool interviewType) coins).take n) ≠ []
    ∧ (interviewType ∉ (["behavioral", "technical", "situational", "mixed"] : List String)
        → specPool interviewType = QUESTIONS_mixed) := by
  have hperm : (shuffleJS (specPool interviewType) coins).Perm
      (specPool interviewType) := sortRand_perm _ _
  have hlen : (personalizeFirst jobRole
      ((shuffleJS (specPool interviewType) coins).take n)).length
      = min n (specPool interviewType).length := by
    rw [personalizeFirst_length, List.length_take, hperm.length_eq]
  refine ⟨generateLocalQuestions_ok coins jobRole interviewType n hp,
    hlen, ?_, ?_, ?_⟩
  · refine personalizeFirst_nodup jobRole (specPool interviewType)
      (freshPool_spec interviewType) _ ?_ ?_
    · exact (List.take_sublist _ _).nodup (hperm.symm.nodup (nodup_spec interviewType))
    · intro r hr
      exact hperm.mem_iff.mp (List.mem_of_mem_take hr)
  · have hpos : 0 < (specPool interviewType).length := by
      rcases specPool_cases interviewType with h | h | h | h <;> rw [h] <;> decide
    rw [← List.length_pos, hlen]
    omega
  · intro h
    unfold specPool
    simp only [List.mem_cons, List.not_mem_nil, or_false, not_or] at h
    rw [if_neg (by simp [h.1]), if_neg (by simp [h.2.1]),
      if_neg (by simp [h.2.2.1])]

/-- Witness for C3 at a concrete request. -/
theorem C3_witness :
    (personalizeFirst "Nurse"
      ((shuffleJS (specPool "technical") [true, false, true]).take 3)).Nodup :=
  (C3_amended_count_nodup [true, false, true] "Nurse" "technical" 3
    (by decide) (by decide)).2.2.1

/-- Claim C4: the score-to-grade mapping is the same pure total function at
all three call sites — `scoreToGrade` of routes/interview.js, `scoreToGrade`
of routes/report.js and the inline grade expression of
`generateReportLocally` — with the stated thresholds. -/
theorem C4_scoreToGrade_agrees (s : Int) :
    (InterviewRoute.scoreToGrade s = ReportRoute.scoreToGrade s
      ∧ InterviewRoute.scoreToGrade s = specGrade s
      ∧ ∀ (i : InterviewRow) (qas : List QA) (rnd : JitterDraws),
          (generateReportLocally i qas rnd).grade
            = InterviewRoute.scoreToGrade (generateReportLocally i qas rnd).overallScore)
    ∧ (s ≥ 85 → InterviewRoute.scoreToGrade s = "Excellent")
    ∧ (70 ≤ s → s < 85 → InterviewRoute.scoreToGrade s = "Good")
    ∧ (55 ≤ s → s < 70 → InterviewRoute.scoreToGrade s = "Average")
    ∧ (40 ≤ s → s < 55 → InterviewRoute.scoreToGrade s = "Needs Improvement")
    ∧ (s < 40 → InterviewRoute.scoreToGrade s = "Poor") := by
  refine ⟨⟨rfl, rfl, fun i qas rnd => rfl⟩, ?_, ?_, ?_, ?_, ?_⟩
  all_goals intros
  all_goals unfold InterviewRoute.scoreToGrade
  all_goals repeat' split
  all_goals first | rfl | omega

/-- Witness for C4 at the scores named by the claim. -/
theorem C4_witness :
    InterviewRoute.scoreToGrade 85 = "Excellent"
    ∧ InterviewRoute.scoreToGrade 84 = "Good"
    ∧ InterviewRoute.scoreToGrade 55 = "Average"
    ∧ InterviewRoute.scoreToGrade 39 = "Poor" :=
  ⟨(C4_scoreToGrade_agrees 85).2.1 (by norm_num),
   (C4_scoreToGrade_agrees 84).2.2.1 (by norm_num) (by norm_num),
   (C4_scoreToGrade_agrees 55).2.2.2.1 (by norm_num) (by norm_num),
   (C4_scoreToGrade_agrees 39).2.2.2.2.2 (by norm_num)⟩

/-- Counterexample to claim C5: `String.prototype.replace` performs
`$`-substitution on the replacement string, so the occurrences are not
replaced by the literal text `the {jobRole} role`: for the job role `$&`
the substitution re-inserts the matched text, and the program's first
question reads "... a good fit for the this role role." rather than the
claimed "... a good fit for the $& role.". -/
theorem C5_counterexample_dollar_substitution :
    (¬ C5LiteralReplacement)
    ∧ generateLocalQuestions [] "$&" "behavioral" 1
        = Except.ok
          ["Tell me about yourself and what makes you a good fit for the this role role."]
    ∧ ("Tell me about yourself and what makes you a good fit for the this role role."
        : String)
        ≠ "Tell me about yourself and what makes you a good fit for the $& role." := by
  refine ⟨?_, rfl, by decide⟩
  intro h
  have hc := h "$&" "X".data [] []
  exact absurd hc (by decide)

/-- Claim C5, amended: for every `interviewType` that does not name an
inherited `Object.prototype` member, `generateLocalQuestions` succeeds and
modifies only the first selected question — the head of the result is the
`$`-substituting role replacement applied to the head of the selection, the
tail of the result is the tail of the selection character for character, and
every element after the first is a string of the selected pool.  Whenever
the job role contains no dollar sign, the text spliced in at every match is
exactly the literal `the {jobRole} role`, as the original claim states. -/
theorem C5_amended_personalize_frame (coins : List Bool)
    (jobRole interviewType : String) (n : Nat)
    (hp : objectProtoKeys.contains interviewType = false) :
    generateLocalQuestions coins jobRole interviewType n
      = Except.ok (personalizeFirst jobRole
          ((shuffleJS (specPool interviewType) coins).take n))
    ∧ (personalizeFirst jobRole
        ((shuffleJS (specPool interviewType) coins).take n)).head?
        = ((shuffleJS (specPool interviewType) coins).take n).head?.map
            (fun q => String.mk (roleReplaceJS jobRole q.data))
    ∧ (personalizeFirst jobRole
        ((shuffleJS (specPool interviewType) coins).take n)).tail
        = ((shuffleJS (specPool interviewType) coins).take n).tail
    ∧ (∀ r ∈ (personalizeFirst jobRole
          ((shuffleJS (specPool interviewType) coins).take n)).tail,
        r ∈ specPool interviewType)
    ∧ (jobRole.data.all (fun c => !(c == '$')) = true →
        ∀ matched before after : List Char,
          dollarSubst matched before after (roleRepl jobRole) = roleRepl jobRole) := by
  have hdollar : jobRole.data.all (fun c => !(c == '$')) = true →
      ∀ matched before after : List Char,
        dollarSubst matched before after (roleRepl jobRole) = roleRepl jobRole :=
    fun hj matched before after =>
      dollarSubst_of_noDollar matched before after _ (noDollar_roleRepl jobRole hj)
  refine ⟨generateLocalQuestions_ok coins jobRole interviewType n hp, ?_⟩
  cases hsel : (shuffleJS (specPool interviewType) coins).take n with
  | nil =>
    refine ⟨rfl, rfl, ?_, hdollar⟩
    intro r hr
    exact absurd hr (List.not_mem_nil r)
  | cons q rest =>
    refine ⟨rfl, rfl, ?_, hdollar⟩
    intro r hr
    have hr2 : r ∈ (shuffleJS (specPool interviewType) coins).take n := by
      rw [hsel]
      exact List.mem_cons_of_mem _ hr
    exact (sortRand_perm _ _).mem_iff.mp (List.mem_of_mem_take hr2)

/-- Witness for C5: on a concrete run the second returned question is a pool
string, by the frame property applied at that element. -/
theorem C5_witness :
    ("Describe a time when you had to deal with a difficult coworker or team member. How did you handle it?"
      : String) ∈ specPool "behavioral" :=
  (C5_amended_personalize_frame [] "Engineer" "behavioral" 2 (by decide)).2.2.2.1
    _ (by decide)

/-- Claim C6: the proctoring violation policy — a violation is a no-op when
inactive or during the cooldown; otherwise it increments the warning count
and engages the cooldown; below 3 warnings it emits a warning carrying the
reason and the count; the violation reaching 3 emits the terminated outcome
and deactivates; from a deactivated state no later event short of activation
emits anything or changes the count; and activation resets the count and the
cooldown. -/
theorem C6_proctor_policy :
    (∀ (s : ProctorState) (r : String), s.active = false ∨ s.cooldown = true →
      handleProctorViolation s r = (s, none))
    ∧ (∀ (s : ProctorState) (r : String), s.active = true → s.cooldown = false →
        (handleProctorViolation s r).1.warnings = s.warnings + 1
        ∧ (handleProctorViolation s r).1.cooldown = true)
    ∧ (∀ (s : ProctorState) (r : String), s.active = true → s.cooldown = false →
        s.warnings + 1 < MAX_PROCTOR_WARNINGS →
        handleProctorViolation s r
          = ({ s with warnings := s.warnings + 1, cooldown := true },
             some (ProctorEmit.warning r (s.warnings + 1))))
    ∧ (∀ (s : ProctorState) (r : String), s.active = true → s.cooldown = false →
        s.warnings = 2 →
        handleProctorViolation s r
          = ({ active := false, warnings := 3, cooldown := true },
             some (ProctorEmit.terminated r)))
    ∧ (∀ (s : ProctorState) (evs : List ProctorEvent), s.active = false →
        (∀ e ∈ evs, e ≠ ProctorEvent.activate) →
        (runProctor s evs).2 = [] ∧ (runProctor s evs).1.active = false
        ∧ (runProctor s evs).1.warnings = s.warnings)
    ∧ (∀ s : ProctorState, s.active = false →
        startProctoring s = { active := true, warnings := 0, cooldown := false }) := by
  refine ⟨violation_noop, ?_, ?_, ?_,
    fun s evs hs hna => runProctor_inactive evs s hs hna, ?_⟩
  · intro s r hact hcool
    unfold handleProctorViolation stopProctoring
    simp only [hact, hcool, Bool.not_true, Bool.or_self, Bool.false_eq_true, if_false]
    split <;> simp
  · intro s r hact hcool hlt
    unfold handleProctorViolation
    simp only [hact, hcool, Bool.not_true, Bool.or_self, Bool.false_eq_true, if_false]
    rw [if_neg (by omega)]
  · intro s r hact hcool hw
    unfold handleProctorViolation stopProctoring
    simp [hact, hcool, hw, MAX_PROCTOR_WARNINGS]
  · intro s hs
    unfold startProctoring
    rw [if_neg (by rw [hs]; exact Bool.false_ne_true)]

/-- Witness for C6: the third violation of an active, cooled-down session
with two warnings terminates and deactivates. -/
theorem C6_witness :
    handleProctorViolation ⟨true, 2, false⟩ "tab switch"
      = (⟨false, 3, true⟩, some (ProctorEmit.terminated "tab switch")) :=
  C6_proctor_policy.2.2.2.1 ⟨true, 2, false⟩ "tab switch" rfl rfl rfl

/-- Claim C7: `generateReportLocally` never fails (it is a total function of
this embedding) and its `overallScore` is the rounded mean of the included
per-answer scores when that collection is non-empty, and the fixed default
60 when it is empty. -/
theorem C7_report_overall_score (i : InterviewRow) (qas : List QA)
    (rnd : JitterDraws) :
    (generateReportLocally i qas rnd).overallScore =
      if includedScores qas = [] then (60 : Int)
      else round ((((includedScores qas).sum : Int) : ℚ)
        / ((includedScores qas).length : ℚ)) := by
  show localAvgScore qas = _
  unfold localAvgScore
  by_cases h : includedScores qas = []
  · simp [h]
  · rw [if_neg h, if_pos (by simpa [List.length_eq_zero] using h),
      List.sum_eq_foldl]

/-- Counterexample to claim C8: the sub-skill jitter is not
`uniformRandomInt(-range, +range)` — the draw `Math.floor(Math.random() *
range * 2 - range)` never attains `+range` (for communication, with range
10, no draw in `[0,1)` yields the offset `+10`), so the claimed support of
the jitter distribution is wrong. -/
theorem C8_counterexample_jitter_support : ¬ C8JitterClaim := by
  intro h
  obtain ⟨r, hr0, hr1, hfl⟩ := h.1 10 (by norm_num) (by norm_num)
  have hlt : varyJitter 10 r < 10 := by
    apply Int.floor_lt.mpr
    push_cast
    nlinarith
  omega

/-- Claim C8, amended: each of the five sub-skill scores equals
`clamp(overallScore + jitter, 0, 100)` where the jitter of a draw in `[0,1)`
is a uniformly distributed integer of `[-range, range - 1]` (not
`[-range, +range]`), with range 10 for communication, relevance and
structure, 8 for confidence, 12 for depth; in particular every sub-skill
score lies within `[0, 100]`. -/
theorem C8_amended_subskill_bounds (i : InterviewRow) (qas : List QA)
    (rnd : JitterDraws)
    (hc0 : 0 ≤ rnd.communication) (hc1 : rnd.communication < 1)
    (hr0 : 0 ≤ rnd.relevance) (hr1 : rnd.relevance < 1)
    (hf0 : 0 ≤ rnd.confidence) (hf1 : rnd.confidence < 1)
    (hs0 : 0 ≤ rnd.structureDraw) (hs1 : rnd.structureDraw < 1)
    (hd0 : 0 ≤ rnd.depth) (hd1 : rnd.depth < 1) :
    ((generateReportLocally i qas rnd).communication
        = vary (generateReportLocally i qas rnd).overallScore 10 rnd.communication
      ∧ (generateReportLocally i qas rnd).relevance
        = vary (generateReportLocally i qas rnd).overallScore 10 rnd.relevance
      ∧ (generateReportLocally i qas rnd).confidence
        = vary (generateReportLocally i qas rnd).overallScore 8 rnd.confidence
      ∧ (generateReportLocally i qas rnd).structureScore
        = vary (generateReportLocally i qas rnd).overallScore 10 rnd.structureDraw
      ∧ (generateReportLocally i qas rnd).depth
        = vary (generateReportLocally i qas rnd).overallScore 12 rnd.depth)
    ∧ ((-10 ≤ varyJitter 10 rnd.communication ∧ varyJitter 10 rnd.communication ≤ 9)
      ∧ (-10 ≤ varyJitter 10 rnd.relevance ∧ varyJitter 10 rnd.relevance ≤ 9)
      ∧ (-8 ≤ varyJitter 8 rnd.confidence ∧ varyJitter 8 rnd.confidence ≤ 7)
      ∧ (-10 ≤ varyJitter 10 rnd.structureDraw ∧ varyJitter 10 rnd.structureDraw ≤ 9)
      ∧ (-12 ≤ varyJitter 12 rnd.depth ∧ varyJitter 12 rnd.depth ≤ 11))
    ∧ ((0 ≤ (generateReportLocally i qas rnd).communication
        ∧ (generateReportLocally i qas rnd).communication ≤ 100)
      ∧ (0 ≤ (generateReportLocally i qas rnd).relevance
        ∧ (generateReportLocally i qas rnd).relevance ≤ 100)
      ∧ (0 ≤ (generateReportLocally i qas rnd).confidence
        ∧ (generateReportLocally i qas rnd).confidence ≤ 100)
      ∧ (0 ≤ (generateReportLocally i qas rnd).structureScore
        ∧ (generateReportLocally i qas rnd).structureScore ≤ 100)
      ∧ (0 ≤ (generateReportLocally i qas rnd).depth
        ∧ (generateReportLocally i qas rnd).depth ≤ 100)) := by
  refine ⟨⟨rfl, rfl, rfl, rfl, rfl⟩, ⟨?_, ?_, ?_, ?_, ?_⟩,
    vary_bounds _ _ _, vary_bounds _ _ _, vary_bounds _ _ _,
    vary_bounds _ _ _, vary_bounds _ _ _⟩
  · have h := varyJitter_bounds 10 rnd.communication (by norm_num) hc0 hc1
    exact ⟨by simpa using h.1, by simpa using h.2⟩
  · have h := varyJitter_bounds 10 rnd.relevance (by norm_num) hr0 hr1
    exact ⟨by simpa using h.1, by simpa using h.2⟩
  · have h := varyJitter_bounds 8 rnd.confidence (by norm_num) hf0 hf1
    exact ⟨by simpa using h.1, by simpa using h.2⟩
  · have h := varyJitter_bounds 10 rnd.structureDraw (by norm_num) hs0 hs1
    exact ⟨by simpa using h.1, by simpa using h.2⟩
  · have h := varyJitter_bounds 12 rnd.depth (by norm_num) hd0 hd1
    exact ⟨by simpa using h.1, by simpa using h.2⟩

/-- Witness for C8 at concrete draws. -/
theorem C8_witness :
    0 ≤ (generateReportLocally ⟨"Nurse", "technical"⟩ [⟨some 80⟩]
      ⟨1/2, 1/2, 1/2, 1/2, 1/2⟩).communication
    ∧ (generateReportLocally ⟨"Nurse", "technical"⟩ [⟨some 80⟩]
      ⟨1/2, 1/2, 1/2, 1/2, 1/2⟩).communication ≤ 100 :=
  (C8_amended_subskill_bounds ⟨"Nurse", "technical"⟩ [⟨some 80⟩]
    ⟨1/2, 1/2, 1/2, 1/2, 1/2⟩
    (by norm_num) (by norm_num) (by norm_num) (by norm_num) (by norm_num)
    (by norm_num) (by norm_num) (by norm_num) (by norm_num) (by norm_num)).2.2.1

/-- Claim C9: a submission whose `questionId` is missing or whose
`answerText` is missing or shorter than 5 characters after trimming is
rejected with the 400 validation message and an empty effect list — no
external or local evaluation and no database write happens. -/
theorem C9_answer_validation (body : AnswerBody)
    (interviewFound questionFound geminiOk : Bool)
    (h : body.questionId = none ∨ body.answerText = none
      ∨ ∃ a, body.answerText = some a ∧ (wsTrim a.data).length < 5) :
    answerRoute body interviewFound questionFound geminiOk
      = ({ status := 400
         , message := "questionId and answerText (min 5 chars) are required." }, []) := by
  have hb : answerBodyInvalid body = true := by
    unfold answerBodyInvalid
    rcases h with h | h | ⟨a, ha, hlen⟩
    · rw [h]
      rfl
    · rw [h]
      simp
    · rw [ha]
      simp [hlen]
  unfold answerRoute
  rw [if_pos hb]

/-- Witness for C9: a 2-character answer is rejected before any effect. -/
theorem C9_witness :
    answerRoute ⟨some 7, some "hi"⟩ true true true
      = ({ status := 400
         , message := "questionId and answerText (min 5 chars) are required." }, []) :=
  C9_answer_validation ⟨some 7, some "hi"⟩ true true true
    (Or.inr (Or.inr ⟨"hi", rfl, by decide⟩))

/-- Claim C10: `generateReportLocally` includes in its average only answers
whose recorded score is truthy — a score of 0 (or a missing score) is
excluded exactly as if the question had been skipped, and an interview whose
recorded answers all have score 0 (or none) gets the default overall score
60 rather than 0. -/
theorem C10_zero_scores_excluded (i : InterviewRow) (qas : List QA)
    (rnd : JitterDraws) :
    includedScores qas
      = includedScores (qas.map (fun qa => if qa.score = some 0 then ⟨none⟩ else qa))
    ∧ ((∀ qa ∈ qas, qa.score = some 0 ∨ qa.score = none) →
        (generateReportLocally i qas rnd).overallScore = 60) := by
  constructor
  · induction qas with
    | nil => rfl
    | cons qa qas ih =>
      rw [List.map_cons, includedScores_cons]
      by_cases h : qa.score = some 0
      · rw [if_pos h, includedScores_cons]
        have h1 : scoreTruthy qa.score = false := by rw [h]; rfl
        have h2 : scoreTruthy (QA.mk none).score = false := rfl
        rw [h1, h2]
        simp only [Bool.false_eq_true, if_false]
        exact ih
      · rw [if_neg h, includedScores_cons]
        cases hs : scoreTruthy qa.score
        · simp only [Bool.false_eq_true, if_false]
          exact ih
        · simp only [if_true]
          rw [ih]
  · intro h
    show localAvgScore qas = 60
    unfold localAvgScore
    rw [includedScores_nil_of_zero qas h]
    simp

/-- Witness for C10: two answers recorded with score 0 yield the default 60. -/
theorem C10_witness :
    (generateReportLocally ⟨"Nurse", "technical"⟩ [⟨some 0⟩, ⟨some 0⟩]
      ⟨0, 0, 0, 0, 0⟩).overallScore = 60 :=
  (C10_zero_scores_excluded ⟨"Nurse", "technical"⟩ [⟨some 0⟩, ⟨some 0⟩]
    ⟨0, 0, 0, 0, 0⟩).2 (by decide)

end VoiceHire
